import Mathlib

/-!
Verification development for the transferdb CSV export engine (package o2m).

The Go source (src/unnamed/part_000) is shallowly embedded below:
pure functions become Lean functions; the metadata store becomes an
explicit state (`MetaState`); each fallible external call (Oracle, the
metadata gateway, the CSV writer) is an `Except String` outcome supplied
by an environment record, and the control flow of the Go function is
reproduced over those outcomes.  The gateway (`database/meta`) and the
`common` package are not part of the given sources; where their semantics
matter, the corresponding definition carries a doc comment starting
"Modelled from the spec:".
-/

/-- ASCII upper-casing of one character, as Go's `strings.ToUpper` acts on
ASCII letters (all identifiers in this code base are ASCII). -/
def charUpper (c : Char) : Char :=
  if 'a' ≤ c ∧ c ≤ 'z' then Char.ofNat (c.toNat - 32) else c

/-- Embedding of `common.StringUPPER` / `strings.ToUpper` for ASCII data. -/
def stringToUpper (s : String) : String :=
  ⟨s.data.map charUpper⟩

/-- Whether `pat` occurs at the head of `s` (character lists). -/
def headMatches : List Char → List Char → Bool
  | [], _ => true
  | _ :: _, [] => false
  | a :: as, b :: bs => a = b && headMatches as bs

/-- Whether `pat` occurs somewhere inside `s`; embedding of Go's
`strings.Contains s pat` (note the Go argument order: haystack first). -/
def containsChars : List Char → List Char → Bool
  | s@([]), pat => headMatches pat s
  | s@(_ :: rest), pat => headMatches pat s || containsChars rest pat

/-- Embedding of `strings.Contains`. -/
def strContains (s pat : String) : Bool :=
  containsChars s.data pat.data

/-- Digit-string accumulator for `goAtoi`. -/
def parseDigits : List Char → Nat → Option Nat
  | [], acc => some acc
  | c :: cs, acc =>
      if c.isDigit then parseDigits cs (acc * 10 + (c.toNat - 48)) else none

/-- Embedding of Go's `strconv.Atoi`: optional sign, then at least one
decimal digit, nothing else (the 64-bit overflow edge is irrelevant for
the short scale strings this code parses). `none` models the error. -/
def goAtoi (s : String) : Option Int :=
  match s.data with
  | [] => none
  | '+' :: cs =>
      match cs with
      | [] => none
      | _ :: _ => (parseDigits cs 0).map (fun n => (n : Int))
  | '-' :: cs =>
      match cs with
      | [] => none
      | _ :: _ => (parseDigits cs 0).map (fun n => -(n : Int))
  | cs => (parseDigits cs 0).map (fun n => (n : Int))

/-- One row of the Oracle column catalog, i.e. the `rowCol` map consumed by
`adjustTableSelectColumn` (keys COLUMN_NAME, DATA_TYPE, DATA_SCALE). -/
structure OracleColumn where
  column_name : String
  data_type : String
  data_scale : String
deriving DecidableEq

/-- The exact-match numeric `case` list of the `switch` (second numeric case). -/
def numericTypes : List String :=
  ["DECIMAL", "DEC", "DOUBLE PRECISION", "FLOAT", "INTEGER", "INT", "REAL",
   "NUMERIC", "BINARY_FLOAT", "BINARY_DOUBLE", "SMALLINT"]

/-- The exact-match character `case` list of the `switch`. -/
def characterTypes : List String :=
  ["BFILE", "CHARACTER", "LONG", "NCHAR VARYING", "ROWID", "UROWID",
   "VARCHAR", "CHAR", "NCHAR", "NVARCHAR2", "NCLOB", "CLOB"]

/-- The exact-match binary `case` list of the `switch`. -/
def binaryTypes : List String := ["BLOB", "LONG RAW", "RAW"]

/-- The projection expression the loop body of `adjustTableSelectColumn`
appends for one catalog row (lines 858-898): a `switch` on the upper-cased
DATA_TYPE, whose default branch does raw substring tests for INTERVAL and
TIMESTAMP; the TIMESTAMP branch parses DATA_SCALE with `strconv.Atoi` and
aborts the whole table on a parse error.  Note the source peculiarities
kept here: the XMLTYPE format string begins with a space, and the middle
timestamp branch condition is `dataScale < 0 && dataScale <= 6`. -/
def adjustOneColumn (rowCol : OracleColumn) : Except String String :=
  let dt := stringToUpper rowCol.data_type
  if dt = "NUMBER" then .ok rowCol.column_name
  else if numericTypes.contains dt then .ok rowCol.column_name
  else if characterTypes.contains dt then .ok rowCol.column_name
  else if dt = "XMLTYPE" then
    .ok (" XMLSERIALIZE(CONTENT " ++ rowCol.column_name ++ " AS CLOB) AS " ++
         rowCol.column_name)
  else if binaryTypes.contains dt then .ok rowCol.column_name
  else if dt = "DATE" then
    .ok ("TO_CHAR(" ++ rowCol.column_name ++ ",'yyyy-MM-dd HH24:mi:ss') AS " ++
         rowCol.column_name)
  else if strContains rowCol.data_type "INTERVAL" then
    .ok ("TO_CHAR(" ++ rowCol.column_name ++ ") AS " ++ rowCol.column_name)
  else if strContains rowCol.data_type "TIMESTAMP" then
    match goAtoi rowCol.data_scale with
    | none =>
        .error ("aujust oracle timestamp datatype scale [" ++ rowCol.data_scale ++
                "] strconv.Atoi failed")
    | some dataScale =>
        if dataScale = 0 then
          .ok ("TO_CHAR(" ++ rowCol.column_name ++ ",'yyyy-mm-dd hh24:mi:ss') AS " ++
               rowCol.column_name)
        else if dataScale < 0 ∧ dataScale ≤ 6 then
          .ok ("TO_CHAR(" ++ rowCol.column_name ++ ",'yyyy-mm-dd hh24:mi:ss.ff" ++
               rowCol.data_scale ++ "') AS " ++ rowCol.column_name)
        else
          .ok ("TO_CHAR(" ++ rowCol.column_name ++ ",'yyyy-mm-dd hh24:mi:ss.ff6') AS " ++
               rowCol.column_name)
  else .ok rowCol.column_name

/-- The accumulation loop of `adjustTableSelectColumn`: one expression per
catalog row, aborting on the first error. -/
def adjustColumns : List OracleColumn → Except String (List String)
  | [] => .ok []
  | c :: cs =>
      match adjustOneColumn c with
      | .error e => .error e
      | .ok s =>
          match adjustColumns cs with
          | .error e => .error e
          | .ok rest => .ok (s :: rest)

/-- Embedding of `adjustTableSelectColumn` (lines 848-903) applied to an
already-fetched column catalog: build one expression per column and
comma-join them (`strings.Join(columnNames, ",")`). -/
def adjustTableSelectColumn (columnsINFO : List OracleColumn) : Except String String :=
  match adjustColumns columnsINFO with
  | .error e => .error e
  | .ok names => .ok (String.intercalate "," names)

deriving instance DecidableEq for Except

/-- The S5 column catalog of the spec:
`D DATE; I INTERVAL DAY TO SECOND; X XMLTYPE; N NUMBER; R RAW`. -/
def s5Catalog : List OracleColumn :=
  [⟨"D", "DATE", ""⟩, ⟨"I", "INTERVAL DAY TO SECOND", ""⟩,
   ⟨"X", "XMLTYPE", ""⟩, ⟨"N", "NUMBER", ""⟩, ⟨"R", "RAW", ""⟩]

/-- The task_status values of the metadata tables (`common.TaskStatus...`). -/
inductive TaskStatus where
  | waiting
  | running
  | success
  | failed
deriving DecidableEq

/-- One `full_sync_meta` row (a ChunkProgress in the spec's vocabulary),
restricted to the fields this run's key makes relevant. -/
structure FullChunk where
  tableName : String
  chunkDetail : String
  status : TaskStatus
  info : String
  errDetail : String
deriving DecidableEq

/-- One `wait_sync_meta` row (a TableProgress in the spec's vocabulary),
restricted to this run's key. -/
structure WaitRow where
  tableName : String
  status : TaskStatus
  globalScn : Nat
  chunkTotal : Int
  chunkSuccess : Int
  chunkFailed : Int
deriving DecidableEq

/-- The metadata store scoped to one run key
(db_type_s, db_type_t, schema_name_s, task_mode are fixed). -/
structure MetaState where
  fullSync : List FullChunk
  waitSync : List WaitRow
deriving DecidableEq

/-- Modelled from the spec: the placeholder snapshot id
`common.TaskTableDefaultSourceGlobalSCN` stored in freshly created
TableProgress rows (the common package is not under src). -/
def defaultGlobalSCN : Nat := 0

/-- Modelled from the spec: the placeholder chunk counter
`common.TaskTableDefaultSplitChunkNums` stored in freshly created
TableProgress rows (the common package is not under src). -/
def defaultChunkTotal : Int := 0

/-- The WAITING placeholder row `CreateWaitSyncMeta` inserts for a table
with no prior record (lines 128-137 and 206-215). -/
def freshWaitRow (name : String) : WaitRow :=
  { tableName := name, status := .waiting, globalScn := defaultGlobalSCN,
    chunkTotal := defaultChunkTotal, chunkSuccess := 0, chunkFailed := 0 }

/-- Modelled from the spec: `CountsErrorFullSyncMeta` with status FAILED —
the number of FAILED ChunkProgress rows of one table (gateway code is in
the meta package, not under src). -/
def countFailedChunks (st : MetaState) (t : String) : Nat :=
  (st.fullSync.filter (fun c => decide (c.tableName = t ∧ c.status = .failed))).length

/-- Modelled from the spec: `DetailFullSyncMeta` with status SUCCESS —
the SUCCESS ChunkProgress rows of one table. -/
def successChunks (st : MetaState) (t : String) : List FullChunk :=
  st.fullSync.filter (fun c => decide (c.tableName = t ∧ c.status = .success))

/-- Modelled from the spec: the count of all ChunkProgress rows of one
table, `CountsFullSyncMetaByTaskTable` (no status restriction). -/
def countChunks (st : MetaState) (t : String) : Nat :=
  (st.fullSync.filter (fun c => decide (c.tableName = t))).length

/-- The TableProgress update applied when a table reaches a terminal
outcome: status plus the two chunk counters. -/
def setTableOutcome (w : WaitRow) (s : TaskStatus) (ok failed : Int) : WaitRow :=
  { w with status := s, chunkSuccess := ok, chunkFailed := failed }

/-- Embedding of the per-table completion step of `csvPartSyncTable`
(lines 522-594): count the FAILED chunks and fetch the SUCCESS chunks of
the table; if no chunk failed, run the gateway's compound operation
`DeleteTableFullSyncMetaAndUpdateWaitSyncMeta` — modelled from the spec as
the atomic pair DeleteSuccessChunks + UpdateTableProgress(SUCCESS,
chunks_ok, chunks_failed = 0) — otherwise only update the TableProgress to
FAILED with the current counts and delete nothing. -/
def finalizeTable (st : MetaState) (t : String) : MetaState :=
  let failedTotal := countFailedChunks st t
  let succChunks := successChunks st t
  if failedTotal = 0 then
    { fullSync := st.fullSync.filter
        (fun c => decide (¬(c.tableName = t ∧ c.status = .success))),
      waitSync := st.waitSync.map
        (fun w => if w.tableName = t then
            setTableOutcome w .success (succChunks.length : Int) 0
          else w) }
  else
    { fullSync := st.fullSync,
      waitSync := st.waitSync.map
        (fun w => if w.tableName = t then
            setTableOutcome w .failed (succChunks.length : Int) (failedTotal : Int)
          else w) }

/-- Error provenance of a chunk task's return value: the wrapped metadata
gateway failures (the `fmt.Errorf` wrappers around `errf` and the bare
`errf` of the SUCCESS update) versus the bare `errClose` of
`rowsResult.Close()`. -/
inductive TaskError where
  | metaErr (msg : String)
  | closeErr (msg : String)
deriving DecidableEq

/-- Successful metadata/cursor operations performed by one chunk task, in
order. `markFailed info err` is the FAILED `UpdateFullSyncMetaChunk` with
its InfoDetail and ErrorDetail payloads. -/
inductive ChunkEvent where
  | markFailed (info : String) (err : String)
  | closeCursor
  | write
  | markSuccess
deriving DecidableEq

/-- Outcomes of the external calls one chunk task can make. Each exclusive
path of the task consumes at most one outcome of each kind, so one field
per kind loses no generality: `queryRes` is `QueryContext`, `columnsRes`
is `rows.Columns`, `closeRes` is `rowsResult.Close`, `writeRes` is the
CSV writer, `metaFailRes` is the FAILED-recording `UpdateFullSyncMetaChunk`
and `metaSuccRes` the SUCCESS-recording one. `mString` is `m.String()`. -/
structure ChunkEnv where
  mString : String
  queryRes : Except String Unit
  columnsRes : Except String (List String)
  closeRes : Except String Unit
  writeRes : Except String Unit
  metaFailRes : Except String Unit
  metaSuccRes : Except String Unit

/-- Embedding of the inner-pool chunk task body of `csvPartSyncTable`
(lines 420-513): open the cursor, read column metadata, hand off to the
writer, and record the chunk outcome; on cursor-open or column-metadata
failure record the chunk FAILED, close the cursor and return. The pair is
(successful operations, returned error). -/
def runChunkTask (env : ChunkEnv) : List ChunkEvent × Option TaskError :=
  match env.queryRes with
  | .error e =>
      match env.metaFailRes with
      | .error errf =>
          ([], some (.metaErr ("get oracle schema table [" ++ env.mString ++
             "] record by rowid sql falied: " ++ errf)))
      | .ok _ =>
          match env.closeRes with
          | .error errClose =>
              ([.markFailed env.mString e], some (.closeErr errClose))
          | .ok _ => ([.markFailed env.mString e, .closeCursor], none)
  | .ok _ =>
      match env.columnsRes with
      | .error e =>
          match env.metaFailRes with
          | .error errf =>
              ([], some (.metaErr ("get oracle schema table [" ++ env.mString ++
                 "] rows.Columns failed: " ++ errf)))
          | .ok _ =>
              match env.closeRes with
              | .error errClose =>
                  ([.markFailed env.mString e], some (.closeErr errClose))
              | .ok _ => ([.markFailed env.mString e, .closeCursor], none)
      | .ok _ =>
          match env.writeRes with
          | .error eW =>
              match env.metaFailRes with
              | .error errf =>
                  ([], some (.metaErr ("get oracle schema table [" ++ env.mString ++
                     "] write file failed: " ++ errf)))
              | .ok _ => ([.markFailed env.mString eW], none)
          | .ok _ =>
              match env.metaSuccRes with
              | .error errf => ([.write], some (.metaErr errf))
              | .ok _ => ([.write, .markSuccess], none)

/-- Successful source-side and metadata operations performed by one
per-table planning task of `initWaitSyncTableRowID`, in order.
`createMeta pred total` is `CreateFullSyncMetaAndUpdateWaitSyncMeta` with
a single chunk predicate and the parent's ChunkTotalNums; `batchCreateMeta`
is the batch variant with one chunk row per predicate;
`startChunkTask` / `closeChunkTask` are `StartOracleChunkCreateTask` /
`CloseOracleChunkTask` on the source. -/
inductive PlanEvent where
  | startChunkTask
  | createMeta (pred : String) (total : Int)
  | batchCreateMeta (preds : List String) (total : Int)
  | closeChunkTask
deriving DecidableEq

/-- Outcomes of the external calls one per-table planning task makes:
`columns` is `GetOracleSchemaTableColumn` (consumed by
`adjustTableSelectColumn`), `statsRows` is
`GetOracleTableRowsByStatistics`, `startTask` is
`StartOracleChunkCreateTask`, `createChunk` is
`StartOracleCreateChunkByRowID`, `chunkRes` is
`GetOracleTableChunksByRowID` (the CMD predicate of each chunk),
`metaCreate` / `batchCreate` are the single / batch
CreateFullSyncMeta+UpdateWaitSyncMeta gateway operations and `closeTask`
is `CloseOracleChunkTask`. -/
structure PlanEnv where
  outputDir : String
  columns : Except String (List OracleColumn)
  statsRows : Except String Nat
  startTask : Except String Unit
  createChunk : Except String Unit
  chunkRes : Except String (List String)
  metaCreate : Except String Unit
  batchCreate : Except String Unit
  closeTask : Except String Unit

/-- Embedding of one per-table planning task of `initWaitSyncTableRowID`
(lines 640-835): require a non-empty output-dir, compile the projection,
read row statistics; zero statistics short-circuit to a single `1 = 1`
chunk; otherwise start a source-side chunk task, split by rowid, fall back
to a single `1 = 1` chunk when the splitter returns nothing, else batch
insert the chunk rows and close the source-side task. The pair is
(successful operations, returned error). Note, faithfully to the source:
`CloseOracleChunkTask` is reached only on the non-empty-chunk path after a
successful batch insert. -/
def planTable (env : PlanEnv) : List PlanEvent × Option String :=
  if env.outputDir = "" then
    ([], some "csv config paramter output-dir can't be null, please configure")
  else
    match env.columns with
    | .error e => ([], some e)
    | .ok cols =>
        match adjustTableSelectColumn cols with
        | .error e => ([], some e)
        | .ok _info =>
            match env.statsRows with
            | .error e => ([], some e)
            | .ok n =>
                if n = 0 then
                  match env.metaCreate with
                  | .error e => ([], some e)
                  | .ok _ => ([.createMeta "1 = 1" 1], none)
                else
                  match env.startTask with
                  | .error e => ([], some e)
                  | .ok _ =>
                      match env.createChunk with
                      | .error e => ([.startChunkTask], some e)
                      | .ok _ =>
                          match env.chunkRes with
                          | .error e => ([.startChunkTask], some e)
                          | .ok chunks =>
                              if chunks.isEmpty then
                                match env.metaCreate with
                                | .error e => ([.startChunkTask], some e)
                                | .ok _ =>
                                    ([.startChunkTask, .createMeta "1 = 1" 1], none)
                              else
                                match env.batchCreate with
                                | .error e => ([.startChunkTask], some e)
                                | .ok _ =>
                                    match env.closeTask with
                                    | .error e =>
                                        ([.startChunkTask,
                                          .batchCreateMeta chunks (chunks.length : Int)],
                                         some e)
                                    | .ok _ =>
                                        ([.startChunkTask,
                                          .batchCreateMeta chunks (chunks.length : Int),
                                          .closeChunkTask], none)

/-- Embedding of `initWaitSyncTableRowID` (lines 622-846): capture the
snapshot SCN and the partition-table list, then run one planning task per
table on a bounded pool. The pool is an errgroup without a shared
cancelling context, so every task body runs to completion regardless of
other tasks' errors; `Wait` then surfaces one of the collected errors.
The result pairs the overall outcome with each table's task outcome. -/
def initWaitSyncTableRowID (scnRes : Except String Nat)
    (partRes : Except String (List String)) (envs : List PlanEnv) :
    Except String Unit × List (List PlanEvent × Option String) :=
  match scnRes with
  | .error e => (.error e, [])
  | .ok _ =>
      match partRes with
      | .error e => (.error e, [])
      | .ok _ =>
          let results := envs.map planTable
          match (results.filterMap (fun r => r.2)).head? with
          | some e => (.error e, results)
          | none => (.ok (), results)

/-- The per-table body of the checkpoint-disabled cleanup loop of `CSV`
(lines 104-142): `DeleteWaitSyncMeta` for the table — modelled from the
spec: "delete every WAITING TableProgress row for every configured table"
(the gateway is in the meta package, not under src) — then
`DetailWaitSyncMeta`; if no row for the table remains, `CreateWaitSyncMeta`
inserts the WAITING placeholder under the upper-cased name. -/
def cleanupStep (t : String) (ws : List WaitRow) : List WaitRow :=
  let ws' := ws.filter (fun w => decide (¬(w.tableName = t ∧ w.status = .waiting)))
  if (ws'.filter (fun w => decide (w.tableName = t))).isEmpty then
    ws' ++ [freshWaitRow (stringToUpper t)]
  else ws'

/-- The checkpoint-disabled cleanup loop over the configured tables. -/
def cleanupLoop : List String → List WaitRow → List WaitRow
  | [], ws => ws
  | t :: rest, ws => cleanupLoop rest (cleanupStep t ws)

/-- Embedding of the `!r.Cfg.CSVConfig.EnableCheckpoint` block of `CSV`
(lines 93-143): `DeleteFullSyncMetaBySchemaSyncMode` — modelled from the
spec: "delete every ChunkProgress row for this run's key" — followed by
the per-table cleanup loop. With checkpointing enabled the block is
skipped. -/
def phaseCheckpoint (enableCheckpoint : Bool) (exporters : List String)
    (st : MetaState) : MetaState :=
  if enableCheckpoint then st
  else { fullSync := [], waitSync := cleanupLoop exporters st.waitSync }

/-- Embedding of the stale-SUCCESS reap of `CSV` (lines 147-171): collect
the tables recorded SUCCESS (`DetailWaitSyncMetaSuccessTables`), keep only
those not in the configured list (`common.FilterDifferenceStringItems`,
modelled from the spec as set difference), and delete exactly their
SUCCESS rows (`DeleteWaitSyncMetaSuccessTables` with the explicit table
list). -/
def phaseReap (exporters : List String) (st : MetaState) : MetaState :=
  let tablesByMeta :=
    (st.waitSync.filter (fun w => decide (w.status = .success))).map
      (fun w => w.tableName)
  let clearTables := tablesByMeta.filter (fun x => !(exporters.contains x))
  { fullSync := st.fullSync,
    waitSync := st.waitSync.filter
      (fun w => decide (¬(w.status = .success ∧ clearTables.contains w.tableName))) }

/-- The FAILED-row count of the fail-fast gate of `CSV` (lines 179-191),
`CountsErrWaitSyncMetaBySchema` modelled from the spec. -/
def failedTableCount (st : MetaState) : Nat :=
  (st.waitSync.filter (fun w => decide (w.status = .failed))).length

/-- The per-table body of the ensure loop of `CSV` (lines 194-220): if the
upper-cased table has no TableProgress row, insert the WAITING
placeholder. -/
def ensureStep (t : String) (ws : List WaitRow) : List WaitRow :=
  if (ws.filter (fun w => decide (w.tableName = stringToUpper t))).isEmpty then
    ws ++ [freshWaitRow (stringToUpper t)]
  else ws

/-- The ensure loop over the configured tables. -/
def ensureLoop : List String → List WaitRow → List WaitRow
  | [], ws => ws
  | t :: rest, ws => ensureLoop rest (ensureStep t ws)

/-- Embedding of lines 194-220 of `CSV`. -/
def phaseEnsure (exporters : List String) (st : MetaState) : MetaState :=
  { fullSync := st.fullSync, waitSync := ensureLoop exporters st.waitSync }

/-- The WAITING tables gathered for planning (lines 228-245):
`DetailWaitSyncMeta` restricted to status WAITING with the placeholder
snapshot and chunk counters, upper-cased. -/
def waitingTables (st : MetaState) : List String :=
  ((st.waitSync.filter (fun w => decide (w.status = .waiting ∧
      w.globalScn = defaultGlobalSCN ∧ w.chunkTotal = defaultChunkTotal))).map
    (fun w => stringToUpper w.tableName))

/-- Embedding of the resume classification of `CSV` (lines 252-281): for
every RUNNING TableProgress row compare the stored ChunkProgress count
with chunks_total; matching tables join `partSyncTables` (first
component), mismatching tables join `panicTblFullSlice` (second
component), in row order. -/
def classifyRunning (st : MetaState) : List String × List String :=
  (st.waitSync.filter (fun w => decide (w.status = .running))).foldl
    (fun acc w =>
      if (countChunks st w.tableName : Int) ≠ w.chunkTotal then
        (acc.1, acc.2 ++ [w.tableName])
      else
        (acc.1 ++ [w.tableName], acc.2))
    ([], [])

/-- Embedding of the planning prefix of `CSV` (lines 93-291): checkpoint
cleanup, stale-SUCCESS reap, fail-fast on FAILED rows, ensure loop, then
resume classification; a non-empty mismatch list aborts the run with the
checkpoint-inconsistency error of line 290. On success it returns the
metadata state as of classification together with the resumable tables
and the WAITING tables still to be planned. (The version gate and the
table-name-rule lookup of the executor are outside this embedding; the
fail-fast diagnostic keeps only the fixed part of the formatted
message.) -/
def csvPlan (enableCheckpoint : Bool) (exporters : List String)
    (st : MetaState) : Except String (MetaState × List String × List String) :=
  let st1 := phaseCheckpoint enableCheckpoint exporters st
  let st2 := phaseReap exporters st1
  if 0 < failedTableCount st2 then
    .error "csv schema mode table task failed: meta table [wait_sync_meta] exist failed error"
  else
    let st3 := phaseEnsure exporters st2
    let parts := classifyRunning st3
    if parts.2.isEmpty then .ok (st3, parts.1, waitingTables st3)
    else .error "checkpoint isn't consistent, can't be resume, please reruning [enable-checkpoint = fase]"

/-- Dispatch events of the executor portion of `CSV`: `execTable` carries
the chunk predicates `csvPartSyncTable` would execute for a resumable
table (its WAITING chunks then its FAILED chunks, lines 390-413);
`planWaitTable` marks a WAITING table handed to
`csvWaitSyncTable`/`initWaitSyncTableRowID` for planning. -/
inductive CsvEvent where
  | execTable (t : String) (chunks : List String)
  | planWaitTable (t : String)
deriving DecidableEq

/-- The chunk predicates `csvPartSyncTable` loads for one table: WAITING
chunks followed by FAILED chunks (lines 390-413). -/
def eligibleChunks (st : MetaState) (t : String) : List String :=
  ((st.fullSync.filter (fun c => decide (c.tableName = t ∧ c.status = .waiting))).map
      (fun c => c.chunkDetail)) ++
  ((st.fullSync.filter (fun c => decide (c.tableName = t ∧ c.status = .failed))).map
      (fun c => c.chunkDetail))

/-- Embedding of the planning-and-dispatch skeleton of `CSV` (lines
65-324): run the planning prefix; on error nothing is executed; otherwise
the resumable tables are dispatched to `csvPartSyncTable` first and the
WAITING tables to `csvWaitSyncTable` second. -/
def csvModel (enableCheckpoint : Bool) (exporters : List String)
    (st : MetaState) : List CsvEvent × Except String Unit :=
  match csvPlan enableCheckpoint exporters st with
  | .error e => ([], .error e)
  | .ok (st3, partTables, waitTables) =>
      ((partTables.map (fun t => CsvEvent.execTable t (eligibleChunks st3 t))) ++
       (waitTables.map CsvEvent.planWaitTable), .ok ())

/-- Claim C1: the spec says a TIMESTAMP column with parsed scale s in
[1,6] is projected with format fraction ff<s> and any s outside [0,6] is
clamped to 6.  Evaluating the embedded `adjustTableSelectColumn` at the
failing inputs shows the code instead emits ff6 for s = 3 and s = 1
(because the middle branch condition reads dataScale < 0 && dataScale <= 6,
so every positive scale falls through to the ff6 branch), and emits the
raw, unclamped scale text for a negative s. -/
theorem c1_code_eval :
    adjustTableSelectColumn [⟨"TS", "TIMESTAMP(3)", "3"⟩] =
      .ok "TO_CHAR(TS,'yyyy-mm-dd hh24:mi:ss.ff6') AS TS" ∧
    adjustTableSelectColumn [⟨"T1", "TIMESTAMP(1)", "1"⟩] =
      .ok "TO_CHAR(T1,'yyyy-mm-dd hh24:mi:ss.ff6') AS T1" ∧
    adjustTableSelectColumn [⟨"TN", "TIMESTAMP(9) WITH TIME ZONE", "-1"⟩] =
      .ok "TO_CHAR(TN,'yyyy-mm-dd hh24:mi:ss.ff-1') AS TN" := by
  decide

/-- Claim C7, counterexample: on the S5 catalog the projection compiler
does not return the exact string the claim states; the XMLTYPE expression
is emitted with a leading space, so the actual output differs from the
claimed one at the character after the second comma. -/
theorem c7_counterexample :
    adjustTableSelectColumn s5Catalog ≠
      .ok "TO_CHAR(D,'yyyy-MM-dd HH24:mi:ss') AS D,TO_CHAR(I) AS I,XMLSERIALIZE(CONTENT X AS CLOB) AS X,N,R" := by
  decide

/-- Claim C7 as amended: on the S5 catalog the projection compiler returns
exactly the claimed string except for a leading space before XMLSERIALIZE,
which the XMLTYPE case's format string emits. -/
theorem c7_amended_projection :
    adjustTableSelectColumn s5Catalog =
      .ok "TO_CHAR(D,'yyyy-MM-dd HH24:mi:ss') AS D,TO_CHAR(I) AS I, XMLSERIALIZE(CONTENT X AS CLOB) AS X,N,R" := by
  decide

/-- A planning-task environment in which the table has non-zero row
statistics, the source-side chunk task is started successfully and the
splitter returns an empty chunk list. -/
def c8Env : PlanEnv :=
  { outputDir := "/data/out", columns := .ok [⟨"N", "NUMBER", ""⟩],
    statsRows := .ok 5, startTask := .ok (), createChunk := .ok (),
    chunkRes := .ok [], metaCreate := .ok (), batchCreate := .ok (),
    closeTask := .ok () }

/-- A planning-task environment in which the splitter's chunk query
itself fails after the source-side chunk task was started. -/
def c8EnvErr : PlanEnv :=
  { outputDir := "/data/out", columns := .ok [⟨"N", "NUMBER", ""⟩],
    statsRows := .ok 5, startTask := .ok (), createChunk := .ok (),
    chunkRes := .error "ORA-00942: chunk query failed", metaCreate := .ok (),
    batchCreate := .ok (), closeTask := .ok () }

/-- Claim C8: the spec requires the source-side chunk-creation task to be
released before the table's planning operation returns on every exit
path.  Evaluating the embedded planning task shows two paths on which the
task is started and the operation returns — successfully on the
empty-chunk-list path, with an error on the splitter-failure path —
without `CloseOracleChunkTask` ever being performed. -/
theorem c8_code_eval :
    planTable c8Env = ([.startChunkTask, .createMeta "1 = 1" 1], none) ∧
    PlanEvent.startChunkTask ∈ (planTable c8Env).1 ∧
    PlanEvent.closeChunkTask ∉ (planTable c8Env).1 ∧
    planTable c8EnvErr =
      ([.startChunkTask], some "ORA-00942: chunk query failed") ∧
    PlanEvent.closeChunkTask ∉ (planTable c8EnvErr).1 := by
  decide

/-- A chunk-task environment: the cursor opens, the column-metadata read
fails, the FAILED metadata update succeeds, and closing the cursor then
fails. -/
def c3Env : ChunkEnv :=
  { mString := "full_sync_meta[TAB:chunk0]",
    queryRes := .ok (), columnsRes := .error "ORA-01013: columns failed",
    closeRes := .error "ORA-03114: connection lost", writeRes := .ok (),
    metaFailRes := .ok (), metaSuccRes := .ok () }

/-- Claim C3, counterexample: on a column-metadata failure the chunk is
recorded FAILED with its diagnostics, yet the chunk task does not return
without error — it propagates the cursor-close error, which is not a
metadata-store error. -/
theorem c3_counterexample :
    runChunkTask c3Env =
      ([.markFailed "full_sync_meta[TAB:chunk0]" "ORA-01013: columns failed"],
       some (.closeErr "ORA-03114: connection lost")) := by
  decide

/-- Claim C3 as amended: on a cursor-open failure or a column-metadata
failure the chunk is recorded FAILED with its diagnostics and — provided
the metadata update and the cursor close succeed — the chunk task returns
without error; the only errors a chunk task propagates out of the inner
pool are metadata-store errors and cursor-close errors. -/
theorem c3_amended_localized (env : ChunkEnv) :
    (∀ e, env.queryRes = .error e → env.metaFailRes = .ok () → env.closeRes = .ok () →
      runChunkTask env = ([.markFailed env.mString e, .closeCursor], none)) ∧
    (∀ e, env.queryRes = .ok () → env.columnsRes = .error e →
      env.metaFailRes = .ok () → env.closeRes = .ok () →
      runChunkTask env = ([.markFailed env.mString e, .closeCursor], none)) ∧
    (∀ te, (runChunkTask env).2 = some te →
      (∃ s, te = TaskError.metaErr s) ∨ (∃ s, te = TaskError.closeErr s)) := by
  obtain ⟨m, q, cols, cl, w, mf, ms⟩ := env
  refine ⟨?_, ?_, ?_⟩
  · intro e hq hmf hcl
    cases hq; cases hmf; cases hcl; rfl
  · intro e hq hc hmf hcl
    cases hq; cases hc; cases hmf; cases hcl; rfl
  · intro te h
    cases q <;> cases cols <;> cases cl <;> cases w <;> cases mf <;> cases ms <;>
      simp_all [runChunkTask]
    all_goals cases h
    all_goals first
      | exact Or.inl ⟨_, rfl⟩
      | exact Or.inr ⟨_, rfl⟩

/-- A chunk-task environment with a failing cursor open whose cleanup
succeeds. -/
def c3WitnessEnv : ChunkEnv :=
  { mString := "full_sync_meta[TAB:chunk1]",
    queryRes := .error "ORA-00942: table or view does not exist",
    columnsRes := .ok [], closeRes := .ok (), writeRes := .ok (),
    metaFailRes := .ok (), metaSuccRes := .ok () }

/-- Witness for claim C3's amended theorem at a concrete environment. -/
theorem c3_amended_witness :
    runChunkTask c3WitnessEnv =
      ([.markFailed "full_sync_meta[TAB:chunk1]"
          "ORA-00942: table or view does not exist", .closeCursor], none) :=
  (c3_amended_localized c3WitnessEnv).1
    "ORA-00942: table or view does not exist" rfl rfl rfl

/-- What claim C10 calls one admissible projection entry for a catalog
column: the bare column name, or some expression aliased AS that name. -/
def projEntry (c : OracleColumn) (e : String) : Prop :=
  e = c.column_name ∨ ∃ p, e = p ++ " AS " ++ c.column_name

/-- Splitting a trailing literal of the form `Lpre ++ " AS "` off a
concatenation exposes the alias shape. -/
theorem split_alias (x L Lpre n : String) (hL : Lpre ++ " AS " = L) :
    ∃ p, (x ++ L) ++ n = (p ++ " AS ") ++ n := by
  refine ⟨x ++ Lpre, ?_⟩
  rw [String.append_assoc x Lpre " AS ", hL]

/-- Every successful per-column projection expression is the bare column
name or an expression aliased AS that column's name. -/
theorem adjustOneColumn_shape (c : OracleColumn) (e : String)
    (h : adjustOneColumn c = .ok e) : projEntry c e := by
  simp only [adjustOneColumn] at h
  repeat' split at h
  all_goals (try cases h)
  all_goals try exact Or.inl rfl
  all_goals first
    | exact Or.inr (split_alias _ _ ",'yyyy-MM-dd HH24:mi:ss')" _ rfl)
    | exact Or.inr (split_alias _ _ ")" _ rfl)
    | exact Or.inr (split_alias _ _ ",'yyyy-mm-dd hh24:mi:ss')" _ rfl)
    | exact Or.inr (split_alias _ _ "')" _ rfl)
    | exact Or.inr (split_alias _ _ ",'yyyy-mm-dd hh24:mi:ss.ff6')" _ rfl)
    | exact Or.inr (split_alias _ _ " AS CLOB)" _ rfl)

/-- The accumulation loop pairs catalog columns with admissible
projection entries, in order. -/
theorem adjustColumns_shape : ∀ (cols : List OracleColumn) (es : List String),
    adjustColumns cols = .ok es → List.Forall₂ projEntry cols es := by
  intro cols
  induction cols with
  | nil =>
      intro es h
      simp only [adjustColumns] at h
      cases h
      exact List.Forall₂.nil
  | cons c cs ih =>
      intro es h
      simp only [adjustColumns] at h
      cases h1 : adjustOneColumn c with
      | error e => rw [h1] at h; cases h
      | ok s =>
          rw [h1] at h
          cases h2 : adjustColumns cs with
          | error e => rw [h2] at h; cases h
          | ok rest =>
              rw [h2] at h
              cases h
              exact List.Forall₂.cons (adjustOneColumn_shape c s h1) (ih rest h2)

/-- Claim C10: whenever the projection compiler succeeds it returns the
comma-join of exactly one expression per catalog column, in catalog
order, each expression being the bare column name or an expression
aliased AS that column's name. -/
theorem c10_projection_shape (cols : List OracleColumn) (s : String)
    (h : adjustTableSelectColumn cols = .ok s) :
    ∃ es, es.length = cols.length ∧ s = String.intercalate "," es ∧
      List.Forall₂ projEntry cols es := by
  simp only [adjustTableSelectColumn] at h
  cases hc : adjustColumns cols with
  | error e => rw [hc] at h; cases h
  | ok names =>
      rw [hc] at h
      cases h
      have hf := adjustColumns_shape cols names hc
      exact ⟨names, (List.Forall₂.length_eq hf).symm, rfl, hf⟩

/-- Witness for claim C10 at a concrete two-column catalog. -/
theorem c10_witness :
    ∃ es, es.length = ([⟨"N", "NUMBER", ""⟩, ⟨"D", "DATE", ""⟩] : List OracleColumn).length ∧
      "N,TO_CHAR(D,'yyyy-MM-dd HH24:mi:ss') AS D" = String.intercalate "," es ∧
      List.Forall₂ projEntry [⟨"N", "NUMBER", ""⟩, ⟨"D", "DATE", ""⟩] es :=
  c10_projection_shape [⟨"N", "NUMBER", ""⟩, ⟨"D", "DATE", ""⟩] _ rfl

/-- Claim C6: a WAITING table whose statistics report zero rows bypasses
the splitter and gets exactly one chunk row with predicate `1 = 1` and
chunks_total 1; a splitter run that returns an empty chunk list likewise
produces exactly the single whole-table chunk (after the source-side
chunk task was started). -/
theorem c6_whole_table_chunk (env : PlanEnv) (cols : List OracleColumn)
    (info : String) (hdir : env.outputDir ≠ "") (hcols : env.columns = .ok cols)
    (hadj : adjustTableSelectColumn cols = .ok info)
    (hmeta : env.metaCreate = .ok ()) :
    (env.statsRows = .ok 0 → planTable env = ([.createMeta "1 = 1" 1], none)) ∧
    (∀ n, env.statsRows = .ok n → n ≠ 0 → env.startTask = .ok () →
      env.createChunk = .ok () → env.chunkRes = .ok [] →
      planTable env = ([.startChunkTask, .createMeta "1 = 1" 1], none)) := by
  constructor
  · intro hstat
    simp [planTable, hdir, hcols, hadj, hstat, hmeta]
  · intro n hstat hn hstart hcreate hchunk
    simp [planTable, hdir, hcols, hadj, hstat, hn, hstart, hcreate, hchunk, hmeta]

/-- A planning-task environment whose table statistics report zero rows. -/
def c6Env : PlanEnv :=
  { outputDir := "/data/out", columns := .ok [⟨"N", "NUMBER", ""⟩],
    statsRows := .ok 0, startTask := .ok (), createChunk := .ok (),
    chunkRes := .ok [], metaCreate := .ok (), batchCreate := .ok (),
    closeTask := .ok () }

/-- Witness for claim C6 at a concrete zero-statistics environment. -/
theorem c6_witness : planTable c6Env = ([.createMeta "1 = 1" 1], none) :=
  (c6_whole_table_chunk c6Env [⟨"N", "NUMBER", ""⟩] "N" (by decide) rfl
    (by decide) rfl).1 rfl

/-- Claim C9: a projection-compiler failure (in particular an unparseable
TIMESTAMP data_scale) aborts only that table's planning task — it returns
the error having created no metadata — while every other table's planning
task still runs and computes its own result, because the task pool does
not cancel sibling tasks. -/
theorem c9_catalog_error_isolated (n : Nat) (ps : List String)
    (envs : List PlanEnv) (i : Nat) (h : i < envs.length)
    (cols : List OracleColumn) (e : String)
    (hdir : (envs.get ⟨i, h⟩).outputDir ≠ "")
    (hcols : (envs.get ⟨i, h⟩).columns = .ok cols)
    (hadj : adjustTableSelectColumn cols = .error e) :
    planTable (envs.get ⟨i, h⟩) = ([], some e) ∧
    (initWaitSyncTableRowID (.ok n) (.ok ps) envs).2 = envs.map planTable := by
  simp only [List.get_eq_getElem] at hdir hcols
  refine ⟨?_, ?_⟩
  · simp [planTable, hdir, hcols, hadj]
  · simp only [initWaitSyncTableRowID]
    cases hh : (((envs.map planTable).filterMap (fun r => r.2)).head?) <;> simp [hh]

/-- A planning-task environment whose catalog has a TIMESTAMP column with
an unparseable data_scale. -/
def c9BadEnv : PlanEnv :=
  { outputDir := "/data/out", columns := .ok [⟨"TS", "TIMESTAMP", "A"⟩],
    statsRows := .ok 0, startTask := .ok (), createChunk := .ok (),
    chunkRes := .ok [], metaCreate := .ok (), batchCreate := .ok (),
    closeTask := .ok () }

/-- Witness for claim C9: with one healthy table and one whose TIMESTAMP
scale fails to parse, the bad table's task errors with no metadata
created, while the per-table results are exactly the independent
per-table outcomes. -/
theorem c9_witness :
    planTable (([c6Env, c9BadEnv] : List PlanEnv).get ⟨1, by decide⟩) =
      ([], some "aujust oracle timestamp datatype scale [A] strconv.Atoi failed") ∧
    (initWaitSyncTableRowID (.ok 42) (.ok []) [c6Env, c9BadEnv]).2 =
      ([c6Env, c9BadEnv] : List PlanEnv).map planTable :=
  c9_catalog_error_isolated 42 [] [c6Env, c9BadEnv] 1 (by decide)
    [⟨"TS", "TIMESTAMP", "A"⟩]
    "aujust oracle timestamp datatype scale [A] strconv.Atoi failed"
    (by decide) rfl (by decide)

/-- Claim C2: once every chunk of a table is terminal, a zero FAILED
count makes the executor atomically delete the table's SUCCESS chunk rows
(leaving other tables' chunks untouched and adding nothing) and set the
TableProgress to SUCCESS with chunks_ok equal to the number of SUCCESS
chunk rows and chunks_failed 0; a positive FAILED count only sets the
TableProgress to FAILED with the current counts and deletes no chunk
row. -/
theorem c2_table_outcome (st : MetaState) (t : String)
    (hterm : ∀ c ∈ st.fullSync, c.tableName = t →
      c.status = .success ∨ c.status = .failed) :
    (countFailedChunks st t = 0 →
      countChunks (finalizeTable st t) t = 0 ∧
      (∀ c ∈ st.fullSync, c.tableName ≠ t → c ∈ (finalizeTable st t).fullSync) ∧
      (∀ c ∈ (finalizeTable st t).fullSync, c ∈ st.fullSync) ∧
      (finalizeTable st t).waitSync = st.waitSync.map
        (fun w => if w.tableName = t then
            setTableOutcome w .success ((successChunks st t).length : Int) 0
          else w)) ∧
    (0 < countFailedChunks st t →
      (finalizeTable st t).fullSync = st.fullSync ∧
      (finalizeTable st t).waitSync = st.waitSync.map
        (fun w => if w.tableName = t then
            setTableOutcome w .failed ((successChunks st t).length : Int)
              ((countFailedChunks st t : Int))
          else w)) := by
  constructor
  · intro h0
    have hnofail : ∀ c ∈ st.fullSync, ¬(c.tableName = t ∧ c.status = .failed) := by
      have hnil : st.fullSync.filter
          (fun c => decide (c.tableName = t ∧ c.status = .failed)) = [] :=
        List.length_eq_zero.mp h0
      intro c hc hcontra
      have : c ∈ st.fullSync.filter
          (fun c => decide (c.tableName = t ∧ c.status = .failed)) :=
        List.mem_filter.mpr ⟨hc, by simpa using hcontra⟩
      rw [hnil] at this
      exact absurd this (List.not_mem_nil c)
    refine ⟨?_, ?_, ?_, ?_⟩
    · simp only [finalizeTable, h0, if_pos, countChunks]
      rw [List.length_eq_zero, List.filter_eq_nil_iff]
      intro c hc
      have hmem := List.mem_filter.mp hc
      simp only [decide_eq_true_eq] at hmem ⊢
      intro hname
      rcases hterm c hmem.1 hname with hsucc | hfail
      · exact hmem.2 ⟨hname, hsucc⟩
      · exact hnofail c hmem.1 ⟨hname, hfail⟩
    · intro c hc hname
      simp only [finalizeTable, h0, if_pos]
      exact List.mem_filter.mpr ⟨hc, by simp [hname]⟩
    · intro c hc
      simp only [finalizeTable, h0, if_pos] at hc
      exact List.mem_of_mem_filter hc
    · simp only [finalizeTable, h0, if_pos]
  · intro hpos
    have hne : countFailedChunks st t ≠ 0 := Nat.pos_iff_ne_zero.mp hpos
    constructor
    · simp only [finalizeTable, if_neg hne]
    · simp only [finalizeTable, if_neg hne]

/-- Rows surviving one cleanup step are old rows or the fresh placeholder. -/
theorem cleanupStep_mem (t : String) (ws : List WaitRow) (w : WaitRow)
    (h : w ∈ cleanupStep t ws) : w ∈ ws ∨ w = freshWaitRow (stringToUpper t) := by
  simp only [cleanupStep] at h
  split at h
  · rcases List.mem_append.mp h with h1 | h1
    · exact Or.inl (List.mem_of_mem_filter h1)
    · simp at h1
      exact Or.inr h1
  · exact Or.inl (List.mem_of_mem_filter h)

/-- A WAITING row for the processed table surviving one cleanup step can
only be the fresh placeholder. -/
theorem cleanupStep_waiting (t : String) (ws : List WaitRow) (w : WaitRow)
    (h : w ∈ cleanupStep t ws) (hname : w.tableName = t)
    (hw : w.status = .waiting) : w = freshWaitRow (stringToUpper t) := by
  simp only [cleanupStep] at h
  split at h
  · rcases List.mem_append.mp h with h1 | h1
    · have := List.mem_filter.mp h1
      simp [decide_eq_true_eq] at this
      rcases this.2 with hcon | hcon
      · exact absurd hname hcon
      · exact absurd hw hcon
    · simpa using h1
  · have := List.mem_filter.mp h
    simp [decide_eq_true_eq] at this
    rcases this.2 with hcon | hcon
    · exact absurd hname hcon
    · exact absurd hw hcon

/-- Non-WAITING rows survive one cleanup step. -/
theorem cleanupStep_keep (t : String) (ws : List WaitRow) (w : WaitRow)
    (hw : w ∈ ws) (hst : w.status ≠ .waiting) : w ∈ cleanupStep t ws := by
  have hf : w ∈ ws.filter
      (fun w => decide (¬(w.tableName = t ∧ w.status = .waiting))) :=
    List.mem_filter.mpr ⟨hw, by simp; exact Or.inr hst⟩
  simp only [cleanupStep]
  split
  · exact List.mem_append.mpr (Or.inl hf)
  · exact hf

/-- Rows surviving the cleanup loop are old rows or fresh placeholders. -/
theorem cleanupLoop_mem : ∀ (exps : List String) (ws : List WaitRow) (w : WaitRow),
    w ∈ cleanupLoop exps ws → w ∈ ws ∨ w = freshWaitRow w.tableName := by
  intro exps
  induction exps with
  | nil => intro ws w h; exact Or.inl h
  | cons t rest ih =>
      intro ws w h
      rcases ih (cleanupStep t ws) w h with h1 | h1
      · rcases cleanupStep_mem t ws w h1 with h2 | h2
        · exact Or.inl h2
        · refine Or.inr ?_
          rw [h2]
          rfl
      · exact Or.inr h1

/-- After the cleanup loop, every WAITING row of a configured table is the
fresh placeholder: the pre-existing WAITING rows were all deleted. -/
theorem cleanupLoop_waiting : ∀ (exps : List String) (ws : List WaitRow),
    (∀ t ∈ exps, stringToUpper t = t) →
    ∀ w ∈ cleanupLoop exps ws, w.tableName ∈ exps → w.status = .waiting →
      w = freshWaitRow w.tableName := by
  intro exps
  induction exps with
  | nil => intro ws _ w _ hmem; exact absurd hmem (List.not_mem_nil _)
  | cons t rest ih =>
      intro ws hup w h hmem hw
      rcases List.mem_cons.mp hmem with heq | hrest
      · rcases cleanupLoop_mem rest (cleanupStep t ws) w h with h1 | h1
        · have h2 := cleanupStep_waiting t ws w h1 heq hw
          rw [h2]
          rfl
        · exact h1
      · exact ih (cleanupStep t ws) (fun x hx => hup x (List.mem_cons_of_mem t hx))
          w h hrest hw

/-- Non-WAITING rows survive the whole cleanup loop. -/
theorem cleanupLoop_keep : ∀ (exps : List String) (ws : List WaitRow) (w : WaitRow),
    w ∈ ws → w.status ≠ .waiting → w ∈ cleanupLoop exps ws := by
  intro exps
  induction exps with
  | nil => intro ws w hw _; exact hw
  | cons t rest ih =>
      intro ws w hw hst
      exact ih (cleanupStep t ws) w (cleanupStep_keep t ws w hw hst) hst

/-- Claim C5: running the planner with checkpointing disabled deletes
every ChunkProgress row for the run's key and every pre-existing WAITING
TableProgress row of every configured table (any WAITING row left for a
configured table is the freshly inserted placeholder), while SUCCESS
TableProgress rows of configured tables survive both the cleanup and the
stale-success reap. -/
theorem c5_replan_cleanup (exporters : List String) (st : MetaState)
    (hup : ∀ t ∈ exporters, stringToUpper t = t) :
    (phaseReap exporters (phaseCheckpoint false exporters st)).fullSync = [] ∧
    (∀ w ∈ (phaseReap exporters (phaseCheckpoint false exporters st)).waitSync,
      w.tableName ∈ exporters → w.status = .waiting →
        w = freshWaitRow w.tableName) ∧
    (∀ w ∈ st.waitSync, w.status = .success → w.tableName ∈ exporters →
      w ∈ (phaseReap exporters (phaseCheckpoint false exporters st)).waitSync) := by
  refine ⟨rfl, ?_, ?_⟩
  · intro w hw hmem hst
    have h1 : w ∈ cleanupLoop exporters st.waitSync := by
      have := List.mem_of_mem_filter hw
      simpa [phaseCheckpoint, phaseReap] using this
    exact cleanupLoop_waiting exporters st.waitSync hup w h1 hmem hst
  · intro w hw hsucc hmem
    have h1 : w ∈ cleanupLoop exporters st.waitSync :=
      cleanupLoop_keep exporters st.waitSync w hw (by simp [hsucc])
    show w ∈ (phaseReap exporters (phaseCheckpoint false exporters st)).waitSync
    simp only [phaseCheckpoint, phaseReap, if_neg, Bool.false_eq_true, if_false]
    refine List.mem_filter.mpr ⟨h1, ?_⟩
    simp only [decide_eq_true_eq]
    intro hcon
    have hclear := hcon.2
    have : w.tableName ∈ (((cleanupLoop exporters st.waitSync).filter
        (fun v => decide (v.status = .success))).map (fun v => v.tableName)).filter
        (fun x => !(exporters.contains x)) := by
      simpa using hclear
    rcases List.mem_filter.mp this with ⟨hmem2, hcontains⟩
    simp at hcontains
    exact hcontains hmem

/-- The ensure loop only appends fresh WAITING placeholders, for
upper-cased configured tables that had no row. -/
theorem ensureLoop_shape : ∀ (exps : List String) (ws : List WaitRow),
    ∃ fr, ensureLoop exps ws = ws ++ fr ∧
      ∀ w ∈ fr, w.status = .waiting ∧ w.globalScn = defaultGlobalSCN ∧
        w.chunkTotal = defaultChunkTotal ∧
        (∀ v ∈ ws, v.tableName ≠ w.tableName) ∧
        w.tableName ∈ exps.map stringToUpper := by
  intro exps
  induction exps with
  | nil => intro ws; exact ⟨[], by rw [List.append_nil]; rfl, by simp⟩
  | cons t rest ih =>
      intro ws
      by_cases hin : ((ws.filter
          (fun w => decide (w.tableName = stringToUpper t))).isEmpty : Bool) = true
      · obtain ⟨fr1, heq1, hcond1⟩ := ih (ws ++ [freshWaitRow (stringToUpper t)])
        refine ⟨freshWaitRow (stringToUpper t) :: fr1, ?_, ?_⟩
        · show ensureLoop rest (ensureStep t ws) = _
          rw [ensureStep, if_pos hin, heq1, List.append_assoc]
          rfl
        · intro w hw
          rcases List.mem_cons.mp hw with h1 | h1
          · subst h1
            refine ⟨rfl, rfl, rfl, ?_, ?_⟩
            · intro v hv
              have hnil := List.isEmpty_iff.mp hin
              intro hcon
              have : v ∈ ws.filter (fun w => decide (w.tableName = stringToUpper t)) :=
                List.mem_filter.mpr ⟨hv, by simp [hcon, freshWaitRow]⟩
              rw [hnil] at this
              exact absurd this (List.not_mem_nil v)
            · exact List.mem_map.mpr ⟨t, List.mem_cons_self t rest, rfl⟩
          · obtain ⟨hst, hscn, htot, hother, hmem⟩ := hcond1 w h1
            refine ⟨hst, hscn, htot, ?_, ?_⟩
            · intro v hv
              exact hother v (List.mem_append.mpr (Or.inl hv))
            · exact List.mem_map.mpr (by
                obtain ⟨x, hx1, hx2⟩ := List.mem_map.mp hmem
                exact ⟨x, List.mem_cons_of_mem t hx1, hx2⟩)
      · obtain ⟨fr1, heq1, hcond1⟩ := ih ws
        refine ⟨fr1, ?_, ?_⟩
        · show ensureLoop rest (ensureStep t ws) = _
          rw [ensureStep, if_neg hin, heq1]
        · intro w hw
          obtain ⟨hst, hscn, htot, hother, hmem⟩ := hcond1 w hw
          refine ⟨hst, hscn, htot, hother, ?_⟩
          exact List.mem_map.mpr (by
            obtain ⟨x, hx1, hx2⟩ := List.mem_map.mp hmem
            exact ⟨x, List.mem_cons_of_mem t hx1, hx2⟩)

/-- Filtering by a weaker predicate first does not change a filter. -/
theorem filter_filter_imp {α : Type} (p q : α → Bool) (l : List α)
    (himp : ∀ a, p a = true → q a = true) :
    (l.filter q).filter p = l.filter p := by
  induction l with
  | nil => rfl
  | cons a as ih =>
      by_cases hq : q a = true
      · by_cases hp : p a = true <;> simp [List.filter_cons, hq, hp, ih]
      · have hp : ¬ p a = true := fun hp => hq (himp a hp)
        simp [List.filter_cons, hq, hp, ih]

/-- The classification fold partitions the rows into the matching and the
mismatching ones, keeping row order. -/
theorem classify_fold (st : MetaState) : ∀ (rows : List WaitRow)
    (acc : List String × List String),
    rows.foldl (fun acc w =>
      if (countChunks st w.tableName : Int) ≠ w.chunkTotal then
        (acc.1, acc.2 ++ [w.tableName])
      else (acc.1 ++ [w.tableName], acc.2)) acc =
    (acc.1 ++ (rows.filter (fun w =>
        decide ((countChunks st w.tableName : Int) = w.chunkTotal))).map
        (fun w => w.tableName),
     acc.2 ++ (rows.filter (fun w =>
        !decide ((countChunks st w.tableName : Int) = w.chunkTotal))).map
        (fun w => w.tableName)) := by
  intro rows
  induction rows with
  | nil => intro acc; simp
  | cons w rest ih =>
      intro acc
      by_cases hc : (countChunks st w.tableName : Int) = w.chunkTotal
      · simp only [List.foldl_cons, if_neg (by simp [hc] : ¬((countChunks st w.tableName : Int) ≠ w.chunkTotal)), ih,
          List.filter_cons, hc]
        simp [hc]
      · simp only [List.foldl_cons, if_pos hc, ih, List.filter_cons]
        simp [hc]

/-- Claim C4: under a resume run, a RUNNING table whose stored chunk-row
count differs from its chunks_total makes the whole run fail with the
chunk-inconsistency error and no execution or planning dispatch at all;
if every RUNNING table's counts agree, planning succeeds, the chunk rows
are untouched, and every RUNNING table is classified resumable (in the
part-sync list) and is not replanned (not in the waiting list). -/
theorem c4_chunk_consistency (exporters : List String) (st : MetaState)
    (hup : ∀ t ∈ exporters, stringToUpper t = t)
    (hupRows : ∀ w ∈ st.waitSync, stringToUpper w.tableName = w.tableName)
    (huniq : st.waitSync.Pairwise (fun a b => a.tableName ≠ b.tableName))
    (hnofail : ∀ w ∈ st.waitSync, w.status ≠ .failed) :
    ((∃ w ∈ st.waitSync, w.status = .running ∧
        (countChunks st w.tableName : Int) ≠ w.chunkTotal) →
      csvModel true exporters st =
        ([], .error "checkpoint isn't consistent, can't be resume, please reruning [enable-checkpoint = fase]")) ∧
    ((∀ w ∈ st.waitSync, w.status = .running →
        (countChunks st w.tableName : Int) = w.chunkTotal) →
      ∃ st3 parts waits, csvPlan true exporters st = .ok (st3, parts, waits) ∧
        st3.fullSync = st.fullSync ∧
        (∀ w ∈ st.waitSync, w.status = .running →
          w.tableName ∈ parts ∧ w.tableName ∉ waits)) := by
  -- the state after checkpoint phase is st itself
  have hchk : phaseCheckpoint true exporters st = st := rfl
  -- the reaped state
  set st2 := phaseReap exporters (phaseCheckpoint true exporters st) with hst2
  have hfs2 : st2.fullSync = st.fullSync := rfl
  have hsub2 : ∀ w ∈ st2.waitSync, w ∈ st.waitSync := by
    intro w hw
    exact List.mem_of_mem_filter hw
  have hfail2 : failedTableCount st2 = 0 := by
    unfold failedTableCount
    rw [List.length_eq_zero, List.filter_eq_nil_iff]
    intro w hw
    simp only [decide_eq_true_eq]
    exact hnofail w (hsub2 w hw)
  -- running rows survive the reap
  have hrun2 : ∀ w ∈ st.waitSync, w.status = .running → w ∈ st2.waitSync := by
    intro w hw hrun
    refine List.mem_filter.mpr ⟨hw, ?_⟩
    simp only [decide_eq_true_eq]
    intro hcon
    rw [hrun] at hcon
    exact absurd hcon.1 (by decide)
  -- the ensured state
  set st3 := phaseEnsure exporters st2 with hst3
  obtain ⟨fr, hfr, hfrcond⟩ := ensureLoop_shape exporters st2.waitSync
  have hws3 : st3.waitSync = st2.waitSync ++ fr := hfr
  have hfs3 : st3.fullSync = st.fullSync := hfs2
  have hcount : ∀ x, countChunks st3 x = countChunks st x := by
    intro x
    unfold countChunks
    rw [hfs3]
  -- running rows of st3 are exactly the running rows of st
  have hrunfilter : st3.waitSync.filter (fun w => decide (w.status = .running)) =
      st.waitSync.filter (fun w => decide (w.status = .running)) := by
    rw [hws3, List.filter_append]
    have h1 : fr.filter (fun w => decide (w.status = .running)) = [] := by
      rw [List.filter_eq_nil_iff]
      intro w hw
      have := (hfrcond w hw).1
      simp [this]
    rw [h1, List.append_nil]
    exact filter_filter_imp _ _ st.waitSync (by
      intro a ha
      simp only [decide_eq_true_eq] at ha ⊢
      intro hcon
      rw [ha] at hcon
      exact absurd hcon.1 (by decide))
  -- the classification in terms of filters over st
  have hclass : classifyRunning st3 =
      (((st.waitSync.filter (fun w => decide (w.status = .running))).filter
          (fun w => decide ((countChunks st w.tableName : Int) = w.chunkTotal))).map
        (fun w => w.tableName),
       ((st.waitSync.filter (fun w => decide (w.status = .running))).filter
          (fun w => !decide ((countChunks st w.tableName : Int) = w.chunkTotal))).map
        (fun w => w.tableName)) := by
    unfold classifyRunning
    rw [classify_fold st3 _ ([], [])]
    simp only [hcount, hrunfilter, List.nil_append]
  constructor
  · -- a mismatching RUNNING table aborts the run before any execution
    rintro ⟨w, hwmem, hrun, hmis⟩
    have hpanic : w.tableName ∈ (classifyRunning st3).2 := by
      rw [hclass]
      refine List.mem_map.mpr ⟨w, ?_, rfl⟩
      refine List.mem_filter.mpr ⟨List.mem_filter.mpr ⟨hwmem, by simp [hrun]⟩, ?_⟩
      simp [hmis]
    have hne : (classifyRunning st3).2 ≠ [] := List.ne_nil_of_mem hpanic
    have hemp : (classifyRunning st3).2.isEmpty = false := by
      cases hh : (classifyRunning st3).2.isEmpty
      · rfl
      · exact absurd (List.isEmpty_iff.mp hh) hne
    have hplan : csvPlan true exporters st =
        .error "checkpoint isn't consistent, can't be resume, please reruning [enable-checkpoint = fase]" := by
      simp only [csvPlan]
      rw [← hst2, hfail2]
      simp only [Nat.lt_irrefl, if_false]
      rw [← hst3, hemp]
      simp
    unfold csvModel
    rw [hplan]
  · intro hall
    have hempty : (classifyRunning st3).2 = [] := by
      rw [hclass]
      rw [List.map_eq_nil_iff, List.filter_eq_nil_iff]
      intro w hw
      obtain ⟨hmem, hrun⟩ := List.mem_filter.mp hw
      simp only [decide_eq_true_eq] at hrun
      simp [hall w hmem hrun]
    have hemp2 : (classifyRunning st3).2.isEmpty = true := by
      rw [hempty]
      rfl
    refine ⟨st3, (classifyRunning st3).1, waitingTables st3, ?_, hfs3, ?_⟩
    · simp only [csvPlan]
      rw [← hst2, hfail2]
      simp only [Nat.lt_irrefl, if_false]
      rw [← hst3, hemp2]
      simp
    · intro w hw hrun
      constructor
      · rw [hclass]
        refine List.mem_map.mpr ⟨w, ?_, rfl⟩
        refine List.mem_filter.mpr ⟨List.mem_filter.mpr ⟨hw, by simp [hrun]⟩, ?_⟩
        simp [hall w hw hrun]
      · intro hcon
        unfold waitingTables at hcon
        obtain ⟨r, hr, hrname⟩ := List.mem_map.mp hcon
        obtain ⟨hrmem3, hrpred⟩ := List.mem_filter.mp hr
        simp only [decide_eq_true_eq] at hrpred
        obtain ⟨hrwait, hrscn, hrtot⟩ := hrpred
        rw [hws3] at hrmem3
        rcases List.mem_append.mp hrmem3 with hr2 | hrfr
        · have hrst : r ∈ st.waitSync := hsub2 r hr2
          have hrn : stringToUpper r.tableName = r.tableName := hupRows r hrst
          rw [hrn] at hrname
          have hne' : r ≠ w := by
            intro he
            rw [he] at hrwait
            rw [hrun] at hrwait
            cases hrwait
          have hsymm : Symmetric (fun (a b : WaitRow) => a.tableName ≠ b.tableName) :=
            fun a b hab => fun he => hab he.symm
          exact (List.Pairwise.forall hsymm huniq hrst hw hne') hrname
        · obtain ⟨hst', hscn', htot', hother, hmemmap⟩ := hfrcond r hrfr
          obtain ⟨x, hx, hxe⟩ := List.mem_map.mp hmemmap
          have hxu : stringToUpper x = x := hup x hx
          have hrn : stringToUpper r.tableName = r.tableName := by
            rw [← hxe, hxu, hxu]
          rw [hrn] at hrname
          have hw2 : w ∈ st2.waitSync := hrun2 w hw hrun
          exact (hother w hw2) hrname.symm

/-- A metadata state in which table T has two SUCCESS chunks and no FAILED
chunk, while table U still has a WAITING chunk. -/
def c2State : MetaState :=
  { fullSync :=
      [⟨"T", "ROWID BETWEEN 'AAA' AND 'BBB'", .success, "", ""⟩,
       ⟨"T", "ROWID BETWEEN 'BBB' AND 'CCC'", .success, "", ""⟩,
       ⟨"U", "1 = 1", .waiting, "", ""⟩],
    waitSync := [⟨"T", .running, 77, 2, 0, 0⟩, ⟨"U", .waiting, 0, 0, 0, 0⟩] }

/-- Witness for claim C2 at a concrete metadata state. -/
theorem c2_witness :
    countChunks (finalizeTable c2State "T") "T" = 0 ∧
    (finalizeTable c2State "T").waitSync = c2State.waitSync.map
      (fun w => if w.tableName = "T" then
          setTableOutcome w .success ((successChunks c2State "T").length : Int) 0
        else w) :=
  ⟨((c2_table_outcome c2State "T" (by decide)).1 (by decide)).1,
   ((c2_table_outcome c2State "T" (by decide)).1 (by decide)).2.2.2⟩

/-- A metadata state with one RUNNING table whose stored chunk count (1)
differs from its chunks_total (4). -/
def c4State : MetaState :=
  { fullSync := [⟨"T", "1 = 1", .waiting, "", ""⟩],
    waitSync := [⟨"T", .running, 90, 4, 0, 0⟩] }

/-- Witness for claim C4: the mismatching RUNNING table aborts the run
with the chunk-inconsistency error and no execution events. -/
theorem c4_witness :
    csvModel true ["T"] c4State =
      ([], .error "checkpoint isn't consistent, can't be resume, please reruning [enable-checkpoint = fase]") :=
  (c4_chunk_consistency ["T"] c4State (by decide) (by decide) (by decide)
    (by decide)).1 (by decide)

/-- A metadata state with a WAITING row and chunk rows for table A and a
SUCCESS row for the configured table B. -/
def c5State : MetaState :=
  { fullSync := [⟨"A", "1 = 1", .waiting, "", ""⟩],
    waitSync := [⟨"A", .waiting, 0, 0, 0, 0⟩, ⟨"B", .success, 5, 3, 3, 0⟩,
                 ⟨"C", .success, 7, 2, 2, 0⟩] }

/-- Witness for claim C5: replanning with checkpointing disabled clears
every chunk row while the configured table B keeps its SUCCESS row. -/
theorem c5_witness :
    (phaseReap ["A", "B"] (phaseCheckpoint false ["A", "B"] c5State)).fullSync = [] ∧
    (⟨"B", .success, 5, 3, 3, 0⟩ : WaitRow) ∈
      (phaseReap ["A", "B"] (phaseCheckpoint false ["A", "B"] c5State)).waitSync :=
  ⟨(c5_replan_cleanup ["A", "B"] c5State (by decide)).1,
   (c5_replan_cleanup ["A", "B"] c5State (by decide)).2.2
     ⟨"B", .success, 5, 3, 3, 0⟩ (by decide) rfl (by decide)⟩
